import Mathlib

/-!
Verification of the asset-generation scripts of `resume-job-finder`
(`src/unnamed/part_000`, the screenshot pipeline, and
`src/scripts/generate-flux-icon.js`, the icon pipeline).

The scripts are JavaScript (ES modules, hence strict mode).  We shallowly
embed the JSON manifest as an inductive value type with association-list
objects (JS object property order: updating an existing key keeps its
position, a new key is appended), and model the JS operations the scripts
use:

* property read `o.k` — throws `TypeError` on `null`/`undefined`, yields
  `undefined` on other primitives, looks up the key on objects;
* optional chaining `o?.k` — yields `undefined` instead of throwing;
* property write `o.k = v` — in strict mode throws on any non-object
  receiver.  (Ad-hoc properties on arrays, which `JSON.stringify` would
  discard anyway, are out of scope and modelled as a thrown error too;
  no caller of these scripts stores an array under `miniapp`.)
* truthiness of JS values.

Exceptions are the `Except Unit` monad; the scripts' `try`/`catch` blocks
become total wrapper functions.  Effects that reach outside the process
(the filesystem, `fetch`, the Together AI client, `Date`, `new URL`) enter
as explicit parameters: the manifest file is `ManifestFile` (absent /
unreadable-or-unparseable / parsed JSON), the images directory is a list of
filenames, network call outcomes are oracles, `new URL(u).origin` is an
oracle function, and `Date.prototype.toISOString` output is a string
parameter.
-/

namespace ResumeJobFinder

/-- JSON values as the scripts see them after `JSON.parse`, extended with
`undefined` for the JavaScript `undefined` produced by missing-property reads.
Objects are association lists in insertion order. -/
inductive Json where
  | null : Json
  | undefined : Json
  | bool (b : Bool) : Json
  | num (n : Int) : Json
  | str (s : String) : Json
  | arr (elems : List Json) : Json
  | obj (fields : List (String × Json)) : Json

/-- Key lookup in a JS object's property list (first match wins; JS objects
have unique keys, and all operations below preserve that). -/
def lookupAssoc : List (String × Json) → String → Option Json
  | [], _ => none
  | (ka, va) :: rest, k => if ka = k then some va else lookupAssoc rest k

/-- JS property assignment on a property list: an existing key is updated in
place, a fresh key is appended at the end. -/
def setAssoc : List (String × Json) → String → Json → List (String × Json)
  | [], k, v => [(k, v)]
  | (ka, va) :: rest, k, v =>
      if ka = k then (k, v) :: rest else (ka, va) :: setAssoc rest k v

/-- JavaScript truthiness of a value. -/
def Json.truthy : Json → Bool
  | .null => false
  | .undefined => false
  | .bool b => b
  | .num n => n != 0
  | .str s => s != ""
  | .arr _ => true
  | .obj _ => true

/-- JS property read `o.k`: throws on `null`/`undefined`, yields the looked-up
value (or `undefined`) on objects, `undefined` on other values. -/
def Json.getMember : Json → String → Except Unit Json
  | .null, _ => .error ()
  | .undefined, _ => .error ()
  | .obj fs, k => .ok ((lookupAssoc fs k).getD .undefined)
  | _, _ => .ok .undefined

/-- JS optional-chained read `o?.k`: `undefined` instead of a throw. -/
def Json.optMember : Json → String → Json
  | .obj fs, k => (lookupAssoc fs k).getD .undefined
  | _, _ => .undefined

/-- JS property write `o.k = v` in strict mode: succeeds only on objects. -/
def Json.setMember : Json → String → Json → Except Unit Json
  | .obj fs, k, v => .ok (.obj (setAssoc fs k v))
  | _, _, _ => .error ()

/-- Plain field lookup, used to state preservation properties. -/
def Json.getField : Json → String → Option Json
  | .obj fs, k => lookupAssoc fs k
  | _, _ => none

/-- Lookup of a field inside the top-level `miniapp` object. -/
def miniappField (j : Json) (k : String) : Option Json :=
  match j.getField "miniapp" with
  | some m => m.getField k
  | none => none

theorem lookupAssoc_setAssoc (fs : List (String × Json)) (k q : String) (v : Json) :
    lookupAssoc (setAssoc fs k v) q = if k = q then some v else lookupAssoc fs q := by
  induction fs with
  | nil => by_cases h : k = q <;> simp [setAssoc, lookupAssoc, h]
  | cons hd tl ih =>
      obtain ⟨ka, va⟩ := hd
      by_cases hka : ka = k
      · subst hka
        by_cases hq : ka = q <;> simp [setAssoc, lookupAssoc, hq]
      · by_cases hq : ka = q
        · subst hq
          have : ¬ k = ka := fun h => hka h.symm
          simp [setAssoc, lookupAssoc, hka, this]
        · simp [setAssoc, lookupAssoc, hka, hq, ih]

/-- Truthiness of a JS value that is either a string or `undefined` (an
optional env var, CLI argument, or filename field): falsy iff missing or
empty. -/
def strTruthy : Option String → Bool
  | some s => s != ""
  | none => false

/-- Template-literal interpolation of a possibly-undefined string, as in
`` `https://${process.env.NEXT_PUBLIC_APP_DOMAIN}` ``. -/
def jsStr : Option String → String
  | some s => s
  | none => "undefined"

/-- The `screenshotFilenames` argument of `updateFarcasterConfig`
(`part_000`, line 216): an object with optional `embed` and `splash`
string fields. -/
structure ScreenshotFilenames where
  embed : Option String
  splash : Option String

/-- The manifest file `public/.well-known/farcaster.json` as the patchers
see it: absent (`existsSync` false), present but `readFileSync`/`JSON.parse`
throws, or parsed to a JSON value. -/
inductive ManifestFile where
  | absent : ManifestFile
  | unreadable : ManifestFile
  | parsed (j : Json) : ManifestFile

/-- The four property assignments inside `if (config.miniapp) { ... }` of
`updateFarcasterConfig` (`part_000`, lines 231-242), acting on the value of
`config.miniapp`:

```js
if (screenshotFilenames.embed)
  config.miniapp.imageUrl = `${baseUrl}/images/${screenshotFilenames.embed}`;
if (screenshotFilenames.splash)
  config.miniapp.splashImageUrl = `${baseUrl}/images/${screenshotFilenames.splash}`;
config.miniapp.homeUrl = baseUrl;
config.miniapp.webhookUrl = `${baseUrl}/api/webhook`;
```
-/
def patchMiniapp (baseUrl : String) (fns : ScreenshotFilenames) (m : Json) :
    Except Unit Json :=
  Except.bind
    (if strTruthy fns.embed then
      m.setMember "imageUrl" (.str (baseUrl ++ "/images/" ++ jsStr fns.embed))
    else .ok m) fun m1 =>
  Except.bind
    (if strTruthy fns.splash then
      m1.setMember "splashImageUrl" (.str (baseUrl ++ "/images/" ++ jsStr fns.splash))
    else .ok m1) fun m2 =>
  Except.bind (m2.setMember "homeUrl" (.str baseUrl)) fun m3 =>
  m3.setMember "webhookUrl" (.str (baseUrl ++ "/api/webhook"))

/-- The body of `updateFarcasterConfig` (`part_000`, lines 226-245) after the
manifest has been read and parsed to `config`: the value that would be
serialized back by `writeFileSync`, or the exception the body throws.
JS aliasing (`config.miniapp` is mutated in place) becomes: patch the
`miniapp` value, then store it back under the `miniapp` key. -/
def updateFarcasterConfigPure (domain : String) (fns : ScreenshotFilenames)
    (config : Json) : Except Unit Json :=
  let baseUrl := "https://" ++ domain
  Except.bind (config.getMember "miniapp") fun m =>
  if m.truthy then
    Except.bind (patchMiniapp baseUrl fns m) fun m4 =>
    config.setMember "miniapp" m4
  else .ok config

/-- `updateFarcasterConfig` (`part_000`, lines 216-251), whole function: the
`try`/`catch` wrapper around existence check, read, parse, patch, write.
The result is the JSON value written back to the manifest file, `none` when
nothing is written (file absent, or any error was caught and swallowed). -/
def updateFarcasterConfig (domain : String) (fns : ScreenshotFilenames) :
    ManifestFile → Option Json
  | .absent => none
  | .unreadable => none
  | .parsed j =>
      match updateFarcasterConfigPure domain fns j with
      | .ok j2 => some j2
      | .error _ => none

/-- The body of `updateFarcasterConfigWithIcon`
(`generate-flux-icon.js`, lines 201-215) after the manifest parsed to
`config`.  `origin` is the oracle for `new URL(u).origin` (it throws on an
invalid URL), `env` is `process.env.NEXT_PUBLIC_APP_DOMAIN`:

```js
const domain = config.miniapp?.homeUrl ?
  new URL(config.miniapp.homeUrl).origin :
  `https://${process.env.NEXT_PUBLIC_APP_DOMAIN}`;
if (config.miniapp && iconFilename) {
  config.miniapp.iconUrl = `${domain}/images/${iconFilename}`;
}
```
-/
def updateFarcasterConfigWithIconPure (origin : Json → Except Unit String)
    (env : Option String) (iconFilename : Option String) (config : Json) :
    Except Unit Json :=
  Except.bind (config.getMember "miniapp") fun m =>
  Except.bind
    (if (m.optMember "homeUrl").truthy then origin (m.optMember "homeUrl")
     else .ok ("https://" ++ jsStr env)) fun domain =>
  if m.truthy && strTruthy iconFilename then
    Except.bind (m.setMember "iconUrl" (.str (domain ++ "/images/" ++ jsStr iconFilename))) fun m1 =>
    config.setMember "miniapp" m1
  else .ok config

/-- `updateFarcasterConfigWithIcon` (`generate-flux-icon.js`, lines 192-221),
whole function with its `try`/`catch`: the value written back, `none` when
nothing is written. -/
def updateFarcasterConfigWithIcon (origin : Json → Except Unit String)
    (env : Option String) (iconFilename : Option String) :
    ManifestFile → Option Json
  | .absent => none
  | .unreadable => none
  | .parsed j =>
      match updateFarcasterConfigWithIconPure origin env iconFilename j with
      | .ok j2 => some j2
      | .error _ => none

/-- JS `String.prototype.startsWith` on the character sequence. -/
def strStartsWith (s p : String) : Bool := p.data.isPrefixOf s.data

/-- JS `String.prototype.endsWith` on the character sequence. -/
def strEndsWith (s p : String) : Bool := p.data.isSuffixOf s.data

/-- The filter predicate of `clearExistingScreenshots` (`part_000`,
lines 164-167): `(file.startsWith('screenshot-embed-') ||
file.startsWith('screenshot-splash-')) && file.endsWith('.png')`. -/
def isStaleScreenshot (f : String) : Bool :=
  (strStartsWith f "screenshot-embed-" || strStartsWith f "screenshot-splash-") &&
    strEndsWith f ".png"

/-- `clearExistingScreenshots` (`part_000`, lines 156-181) acting on the
listing of `public/images`: `none` models a missing directory (no-op), and
on a listing every matching file is unlinked.  The per-file `try`/`catch`
only guards the `unlinkSync` call, whose success is implicit here. -/
def clearExistingScreenshots : Option (List String) → Option (List String)
  | none => none
  | some files => some (files.filter fun f => !(isStaleScreenshot f))

/-- The filter predicate of `clearExistingIcons` (`generate-flux-icon.js`,
line 59): `file.startsWith('flux-icon-') && file.endsWith('.png')`. -/
def isStaleIcon (f : String) : Bool :=
  strStartsWith f "flux-icon-" && strEndsWith f ".png"

/-- `clearExistingIcons` (`generate-flux-icon.js`, lines 51-71) acting on
the listing of `public/images`. -/
def clearExistingIcons : Option (List String) → Option (List String)
  | none => none
  | some files => some (files.filter fun f => !(isStaleIcon f))

/-- One character of `.replace(/[:.]/g, '-')`: the class `[:.]` matches a
single colon or dot, each occurrence replaced by a dash. -/
def sanitizeChar (c : Char) : Char := if c = ':' ∨ c = '.' then '-' else c

/-- `new Date().toISOString().replace(/[:.]/g, '-')` applied to the ISO
string (`part_000` line 149 and `generate-flux-icon.js` line 44). -/
def sanitizeTimestamp (s : String) : String := ⟨s.data.map sanitizeChar⟩

/-- `generateFilename(type, prefix)` (`part_000`, lines 148-151 and
`generate-flux-icon.js`, lines 43-46), with the current ISO-8601 timestamp
string as an explicit parameter: `` `${prefix}-${type}-${timestamp}.png` ``. -/
def generateFilename (ty pfx isoNow : String) : String :=
  pfx ++ "-" ++ ty ++ "-" ++ sanitizeTimestamp isoNow ++ ".png"

/-- The test `/^https?:\/\//i.test(url)` of `ensureProtocol` (`part_000`,
line 54): a case-insensitive `http://` or `https://` at the start. -/
def testHttpProtocol (s : String) : Bool :=
  decide ((s.data.take 7).map Char.toLower = "http://".data) ||
    decide ((s.data.take 8).map Char.toLower = "https://".data)

/-- `ensureProtocol` (`part_000`, lines 53-58). -/
def ensureProtocol (url : String) : String :=
  if !(testHttpProtocol url) then "https://" ++ url else url

/-- One element of the image list of the Together AI response; `b64_json`
is absent (`undefined`) or a string (possibly empty, which is falsy). -/
structure FluxImageData where
  b64_json : Option String

/-- The Together AI `images.create` resolved response: `data` is absent or
a list of images. -/
structure FluxResponse where
  data : Option (List FluxImageData)

/-- The errors `generateIcon` can throw once the API call has resolved. -/
inductive IconGenError where
  | noImageData : IconGenError
  | noBase64 : IconGenError
  | saveFailed : IconGenError

/-- `generateIcon` (`generate-flux-icon.js`, lines 121-161) after the API
call resolved to `resp`; `saveOk` is the outcome of the `writeFileSync` in
`downloadAndSaveImage`, `filename` the generated filename.  First component:
the returned filename or the propagated error; second: the files written to
`public/images`. -/
def generateIcon (resp : FluxResponse) (saveOk : Bool) (filename : String) :
    Except IconGenError String × List String :=
  match resp.data with
  | none => (.error .noImageData, [])
  | some [] => (.error .noImageData, [])
  | some (img :: _) =>
      match img.b64_json with
      | none => (.error .noBase64, [])
      | some b =>
          if b = "" then (.error .noBase64, [])
          else if saveOk then (.ok filename, [filename])
          else (.error .saveFailed, [])

/-- The environment variables `generateScreenshots` checks. -/
structure ScreenshotEnv where
  SCREENSHOT_URL : Option String
  BROWSERLESS_API_URL : Option String

/-- Observable outcome of one `generateScreenshots` run. -/
structure ScreenshotRun where
  exitCode : Nat
  networkRequests : Nat
  savedScreenshots : List String
  manifestPatchAttempted : Bool

/-- `generateScreenshots` (`part_000`, lines 256-320) as a trace of its
effects.  The env checks come first (lines 259-272, `process.exit(1)`);
only then the cleaner runs and the two screenshots are fetched in order,
each network call modelled by its success oracle (`embedOk`, `splashOk`)
and generated filename; a failed call throws into the `catch`, which exits
with code 1, so the manifest patch (line 301) is reached only when both
succeed. -/
def generateScreenshots (env : ScreenshotEnv) (embedOk splashOk : Bool)
    (embedName splashName : String) : ScreenshotRun :=
  if !(strTruthy env.SCREENSHOT_URL) then ⟨1, 0, [], false⟩
  else if !(strTruthy env.BROWSERLESS_API_URL) then ⟨1, 0, [], false⟩
  else if !embedOk then ⟨1, 1, [], false⟩
  else if !splashOk then ⟨1, 2, [embedName], false⟩
  else ⟨0, 2, [embedName, splashName], true⟩

/-- Whether a value is `null` or `undefined` (the elements an array join
renders as the empty string). -/
def Json.isNullish : Json → Bool
  | .null => true
  | .undefined => true
  | _ => false

/-- JS `ToString` as used by template-literal interpolation: strings stay,
numbers print in decimal, booleans and `null`/`undefined` print their
keyword, arrays join their elements with commas (nullish elements as ""),
plain objects print `[object Object]`. -/
def jsToString : Json → String
  | .null => "null"
  | .undefined => "undefined"
  | .bool b => cond b "true" "false"
  | .num n => toString n
  | .str s => s
  | .arr xs =>
      String.intercalate "," (xs.attach.map fun x =>
        if x.1.isNullish then "" else jsToString x.1)
  | .obj _ => "[object Object]"
decreasing_by
  simp only [Json.arr.sizeOf_spec]
  have h := List.sizeOf_lt_of_mem x.2
  omega

/-- `getAppNameFromConfig` (`generate-flux-icon.js`, lines 167-177):
`config.miniapp?.name || 'Mini App'` with the whole read/parse/access in a
`try` whose `catch` returns `'Mini App'`.  The result is the raw JS value
(the manifest's `name` need not be a string). -/
def getAppNameFromConfig : ManifestFile → Json
  | .absent => .str "Mini App"
  | .unreadable => .str "Mini App"
  | .parsed j =>
      match j.getMember "miniapp" with
      | .error _ => .str "Mini App"
      | .ok m =>
          let name := m.optMember "name"
          if name.truthy then name else .str "Mini App"

/-- `generateIconPrompt` (`generate-flux-icon.js`, lines 184-186). -/
def generateIconPrompt (appName : String) : String :=
  "Create a clean, minimalist app icon with the text '" ++ appName ++
    "' in bold, modern typography. Square format, centered text, simple background, high contrast, professional design suitable for mobile app icon. Clean and readable at small sizes."

/-- `const prompt = customPrompt || generateIconPrompt(appName)`
(`generate-flux-icon.js`, lines 238-240): `customPrompt` is
`process.argv[2]`, and the app name read from the manifest is interpolated
into the template. -/
def iconPromptChoice (file : ManifestFile) (customPrompt : Option String) :
    String :=
  if strTruthy customPrompt then jsStr customPrompt
  else generateIconPrompt (jsToString (getAppNameFromConfig file))

theorem sanitizeChar_ne (b : Char) :
    sanitizeChar b ≠ ':' ∧ sanitizeChar b ≠ '.' := by
  unfold sanitizeChar
  by_cases h : b = ':' ∨ b = '.'
  · rw [if_pos h]; exact ⟨by decide, by decide⟩
  · rw [if_neg h]; push_neg at h; exact h

/-- Claim C9: `generateFilename` returns `<prefix>-<type>-<timestamp>.png`
where the timestamp is the ISO-8601 string with every colon and dot replaced
by a dash; the result starts with `<prefix>-<type>-` and ends with `.png`,
and the concrete prefix/type pairs used by the pipelines give
`screenshot-embed-...`, `screenshot-splash-...` and `flux-icon-...`. -/
theorem generateFilename_shape (ty pfx isoNow : String) :
    generateFilename ty pfx isoNow =
      pfx ++ "-" ++ ty ++ "-" ++ sanitizeTimestamp isoNow ++ ".png" ∧
    (∀ c ∈ (sanitizeTimestamp isoNow).data, c ≠ ':' ∧ c ≠ '.') ∧
    strStartsWith (generateFilename ty pfx isoNow) (pfx ++ "-" ++ ty ++ "-") = true ∧
    strEndsWith (generateFilename ty pfx isoNow) ".png" = true ∧
    generateFilename "embed" "screenshot" isoNow =
      "screenshot-embed-" ++ sanitizeTimestamp isoNow ++ ".png" ∧
    generateFilename "splash" "screenshot" isoNow =
      "screenshot-splash-" ++ sanitizeTimestamp isoNow ++ ".png" ∧
    generateFilename "icon" "flux" isoNow =
      "flux-icon-" ++ sanitizeTimestamp isoNow ++ ".png" := by
  refine ⟨rfl, ?_, ?_, ?_, ?_, ?_, ?_⟩
  · intro c hc
    have hc2 : c ∈ isoNow.data.map sanitizeChar := hc
    obtain ⟨b, _, hb⟩ := List.mem_map.mp hc2
    exact hb ▸ sanitizeChar_ne b
  · simp [strStartsWith, generateFilename, String.data_append]
  · simp only [strEndsWith, generateFilename, String.data_append,
      List.isSuffixOf_iff_suffix]
    exact ⟨(((pfx.data ++ "-".data) ++ ty.data) ++ "-".data) ++
      (sanitizeTimestamp isoNow).data, rfl⟩
  · rfl
  · rfl
  · rfl

theorem testHttpProtocol_https_append (u : String) :
    testHttpProtocol ("https://" ++ u) = true := by
  have h8 : ("https://".data).length = 8 := by decide
  unfold testHttpProtocol
  rw [String.data_append, List.take_left' h8]
  exact Bool.or_eq_true_iff.mpr (Or.inr (by decide))

/-- Claim C10: `ensureProtocol` returns its argument unchanged when it
already starts with `http://` or `https://` in any letter case (the
case-insensitive regex `/^https?:\/\//i`), prepends `https://` otherwise,
and is therefore idempotent; in particular an `HTTP://` input is not
rewritten. -/
theorem ensureProtocol_cases_and_idempotent (u : String) :
    (testHttpProtocol u = true → ensureProtocol u = u) ∧
    (testHttpProtocol u = false → ensureProtocol u = "https://" ++ u) ∧
    ensureProtocol (ensureProtocol u) = ensureProtocol u ∧
    ensureProtocol "HTTP://example.com" = "HTTP://example.com" := by
  refine ⟨?_, ?_, ?_, by decide⟩
  · intro h; simp [ensureProtocol, h]
  · intro h; simp [ensureProtocol, h]
  · cases h : testHttpProtocol u with
    | true => simp [ensureProtocol, h]
    | false =>
        have h1 : ensureProtocol u = "https://" ++ u := by simp [ensureProtocol, h]
        rw [h1]
        simp [ensureProtocol, testHttpProtocol_https_append]

/-- Claim C2: on an existing directory listing, each cleaner removes exactly
the files matching its pipeline's filename pattern (`screenshot-embed-` or
`screenshot-splash-` plus `.png` for screenshots, `flux-icon-` plus `.png`
for icons) and keeps every other file; a missing directory is a no-op, a
second sweep deletes nothing, and on the spec's example directory only
`screenshot-embed-A.png` is removed. -/
theorem stale_asset_cleaner_exact (files : List String) (f : String) :
    clearExistingScreenshots none = none ∧
    clearExistingIcons none = none ∧
    (f ∈ files →
      ((f ∈ files.filter fun g => !(isStaleScreenshot g)) ↔ isStaleScreenshot f = false)) ∧
    clearExistingScreenshots (some (files.filter fun g => !(isStaleScreenshot g))) =
      clearExistingScreenshots (some files) ∧
    (f ∈ files →
      ((f ∈ files.filter fun g => !(isStaleIcon g)) ↔ isStaleIcon f = false)) ∧
    clearExistingIcons (some (files.filter fun g => !(isStaleIcon g))) =
      clearExistingIcons (some files) ∧
    clearExistingScreenshots (some ["screenshot-embed-A.png", "unrelated.png"]) =
      some ["unrelated.png"] := by
  refine ⟨rfl, rfl, ?_, ?_, ?_, ?_, by decide⟩
  · intro hf; simp [List.mem_filter, hf]
  · simp [clearExistingScreenshots]
  · intro hf; simp [List.mem_filter, hf]
  · simp [clearExistingIcons]

/-- Claim C3: `generateIcon` errors exactly when the response has a missing
or empty `data` list, the first image lacks a nonempty `b64_json` field, or
the save itself fails; every error case leaves the filesystem untouched,
and on success exactly the generated file is written. -/
theorem generateIcon_error_conditions (resp : FluxResponse) (saveOk : Bool)
    (filename : String) :
    ((generateIcon resp saveOk filename).1.isOk = false ↔
      (resp.data = none ∨ resp.data = some [] ∨
       (∃ img rest, resp.data = some (img :: rest) ∧
         (img.b64_json = none ∨ img.b64_json = some "")) ∨
       saveOk = false)) ∧
    ((generateIcon resp saveOk filename).1.isOk = false →
      (generateIcon resp saveOk filename).2 = []) ∧
    ((generateIcon resp saveOk filename).1.isOk = true →
      (generateIcon resp saveOk filename).2 = [filename]) := by
  obtain ⟨d⟩ := resp
  match d with
  | none => simp [generateIcon, Except.isOk, Except.toBool]
  | some [] => simp [generateIcon, Except.isOk, Except.toBool]
  | some (img :: rest) =>
      obtain ⟨b64⟩ := img
      match b64 with
      | none => simp [generateIcon, Except.isOk, Except.toBool]
      | some b =>
          by_cases hb : b = ""
          · subst hb; simp [generateIcon, Except.isOk, Except.toBool]
          · cases saveOk <;> simp [generateIcon, Except.isOk, Except.toBool, hb]

/-- Witness for C3 at two concrete responses: the empty-`data` error writes
nothing, and a successful response writes exactly the generated file. -/
theorem generateIcon_error_conditions_witness :
    (generateIcon ⟨some []⟩ true "f.png").2 = [] ∧
    (generateIcon ⟨some [⟨some "aGk="⟩]⟩ true "f.png").2 = ["f.png"] :=
  ⟨(generateIcon_error_conditions ⟨some []⟩ true "f.png").2.1 (by decide),
   (generateIcon_error_conditions ⟨some [⟨some "aGk="⟩]⟩ true "f.png").2.2 (by decide)⟩

/-- Claim C4: when `SCREENSHOT_URL` or `BROWSERLESS_API_URL` is unset (or
empty, hence falsy), `generateScreenshots` exits with code 1 having issued
no network request, saved no screenshot, and not touched the manifest. -/
theorem generateScreenshots_missing_env_exits_early (env : ScreenshotEnv)
    (embedOk splashOk : Bool) (embedName splashName : String)
    (h : strTruthy env.SCREENSHOT_URL = false ∨
         strTruthy env.BROWSERLESS_API_URL = false) :
    generateScreenshots env embedOk splashOk embedName splashName =
      ⟨1, 0, [], false⟩ := by
  obtain ⟨su, bu⟩ := env
  rcases h with h | h
  · simp [generateScreenshots, h]
  · cases hsu : strTruthy su <;> simp [generateScreenshots, h, hsu]

/-- Witness for C4: with `SCREENSHOT_URL` unset the run exits 1 with no
requests. -/
theorem generateScreenshots_missing_env_exits_early_witness :
    generateScreenshots ⟨none, some "http://browserless"⟩ true true "e.png" "s.png" =
      ⟨1, 0, [], false⟩ :=
  generateScreenshots_missing_env_exits_early ⟨none, some "http://browserless"⟩
    true true "e.png" "s.png" (Or.inl rfl)

/-- Claim C8: the manifest patchers never propagate an error: an absent
manifest is a warned no-op, and any read, parse or patch error is caught
and swallowed so the patcher returns normally without writing; by contrast
the icon generator propagates its error. -/
theorem manifest_patchers_nonfatal (d : String) (fns : ScreenshotFilenames)
    (origin : Json → Except Unit String) (env icf : Option String) :
    updateFarcasterConfig d fns .absent = none ∧
    updateFarcasterConfig d fns .unreadable = none ∧
    (∀ j e, updateFarcasterConfigPure d fns j = .error e →
      updateFarcasterConfig d fns (.parsed j) = none) ∧
    updateFarcasterConfigWithIcon origin env icf .absent = none ∧
    updateFarcasterConfigWithIcon origin env icf .unreadable = none ∧
    (∀ j e, updateFarcasterConfigWithIconPure origin env icf j = .error e →
      updateFarcasterConfigWithIcon origin env icf (.parsed j) = none) ∧
    (∀ saveOk fname, (generateIcon ⟨some []⟩ saveOk fname).1 = .error .noImageData) := by
  refine ⟨rfl, rfl, ?_, rfl, rfl, ?_, ?_⟩
  · intro j e h; simp [updateFarcasterConfig, h]
  · intro j e h; simp [updateFarcasterConfigWithIcon, h]
  · intro saveOk fname; rfl

/-- Witness for C8: a manifest parsing to `null` makes both patcher bodies
throw (property access on `null`), and both swallow it and write nothing. -/
theorem manifest_patchers_nonfatal_witness :
    updateFarcasterConfig "d" ⟨none, none⟩ (.parsed .null) = none ∧
    updateFarcasterConfigWithIcon (fun _ => .error ()) none none (.parsed .null) = none :=
  ⟨(manifest_patchers_nonfatal "d" ⟨none, none⟩ (fun _ => .error ()) none none).2.2.1
      .null () rfl,
   (manifest_patchers_nonfatal "d" ⟨none, none⟩ (fun _ => .error ()) none none).2.2.2.2.2.1
      .null () rfl⟩

/-- Claim C7: with no custom prompt argument, the synthesized icon prompt
contains the manifest's `miniapp.name` as a literal substring, and a
missing, unreadable or nameless manifest falls back to the placeholder
`Mini App`. -/
theorem icon_prompt_contains_app_name (file : ManifestFile)
    (cs ms : List (String × Json)) (n : String) :
    (file = .parsed (.obj cs) → lookupAssoc cs "miniapp" = some (.obj ms) →
      lookupAssoc ms "name" = some (.str n) → n ≠ "" →
      ∃ pre post, iconPromptChoice file none = pre ++ n ++ post) ∧
    getAppNameFromConfig .absent = .str "Mini App" ∧
    getAppNameFromConfig .unreadable = .str "Mini App" ∧
    (file = .parsed (.obj cs) → lookupAssoc cs "miniapp" = some (.obj ms) →
      lookupAssoc ms "name" = none →
      getAppNameFromConfig file = .str "Mini App") ∧
    iconPromptChoice file none =
      generateIconPrompt (jsToString (getAppNameFromConfig file)) := by
  refine ⟨?_, rfl, rfl, ?_, rfl⟩
  · intro hf hm hn hne
    subst hf
    have hname : getAppNameFromConfig (.parsed (.obj cs)) = .str n := by
      simp [getAppNameFromConfig, Json.getMember, hm, Json.optMember, hn,
        Json.truthy, hne]
    refine ⟨"Create a clean, minimalist app icon with the text '",
      "' in bold, modern typography. Square format, centered text, simple background, high contrast, professional design suitable for mobile app icon. Clean and readable at small sizes.",
      ?_⟩
    simp [iconPromptChoice, strTruthy, hname, jsToString, generateIconPrompt]
  · intro hf hm hn
    subst hf
    simp [getAppNameFromConfig, Json.getMember, hm, Json.optMember, hn, Json.truthy]

/-- Witness for C7 at the spec's example: `miniapp.name = "Foo"` yields a
prompt containing `Foo`. -/
theorem icon_prompt_contains_app_name_witness :
    ∃ pre post,
      iconPromptChoice (.parsed (.obj [("miniapp", .obj [("name", .str "Foo")])]))
        none = pre ++ "Foo" ++ post :=
  (icon_prompt_contains_app_name
      (.parsed (.obj [("miniapp", .obj [("name", .str "Foo")])]))
      [("miniapp", .obj [("name", .str "Foo")])] [("name", .str "Foo")] "Foo").1
    rfl (by simp [lookupAssoc]) (by simp [lookupAssoc]) (by decide)

theorem except_bind_ok {α β : Type} {x : Except Unit α} {f : α → Except Unit β}
    {r : β} (h : Except.bind x f = .ok r) : ∃ a, x = .ok a ∧ f a = .ok r := by
  cases x with
  | ok a => exact ⟨a, rfl, h⟩
  | error e => simp [Except.bind] at h

theorem setMember_ok_src {j r : Json} {k : String} {v : Json}
    (h : j.setMember k v = .ok r) :
    ∃ fs, j = .obj fs ∧ r = .obj (setAssoc fs k v) := by
  cases j with
  | obj fs =>
      simp only [Json.setMember, Except.ok.injEq] at h
      exact ⟨fs, rfl, h.symm⟩
  | null => simp [Json.setMember] at h
  | undefined => simp [Json.setMember] at h
  | bool b => simp [Json.setMember] at h
  | num n => simp [Json.setMember] at h
  | str s => simp [Json.setMember] at h
  | arr xs => simp [Json.setMember] at h

/-- The effect of `patchMiniapp` on the property list of an object-valued
`miniapp` (proof artifact used by the lemmas below). -/
def patchMiniappList (baseUrl : String) (fns : ScreenshotFilenames)
    (ms : List (String × Json)) : List (String × Json) :=
  let m1 := if strTruthy fns.embed then
      setAssoc ms "imageUrl" (.str (baseUrl ++ "/images/" ++ jsStr fns.embed))
    else ms
  let m2 := if strTruthy fns.splash then
      setAssoc m1 "splashImageUrl" (.str (baseUrl ++ "/images/" ++ jsStr fns.splash))
    else m1
  setAssoc (setAssoc m2 "homeUrl" (.str baseUrl)) "webhookUrl"
    (.str (baseUrl ++ "/api/webhook"))

theorem patchMiniapp_obj (baseUrl : String) (fns : ScreenshotFilenames)
    (ms : List (String × Json)) :
    patchMiniapp baseUrl fns (.obj ms) =
      .ok (.obj (patchMiniappList baseUrl fns ms)) := by
  unfold patchMiniapp patchMiniappList
  cases hE : strTruthy fns.embed <;> cases hS : strTruthy fns.splash <;>
    simp [Json.setMember, Except.bind]

theorem patchMiniapp_ok_shape {baseUrl : String} {fns : ScreenshotFilenames}
    {m m4 : Json} (h : patchMiniapp baseUrl fns m = .ok m4) :
    ∃ ms, m = .obj ms ∧ m4 = .obj (patchMiniappList baseUrl fns ms) := by
  unfold patchMiniapp at h
  obtain ⟨m1, h1, h⟩ := except_bind_ok h
  obtain ⟨m2, h2, h⟩ := except_bind_ok h
  obtain ⟨m3, h3, h4⟩ := except_bind_ok h
  obtain ⟨ms2, hm2, hm3⟩ := setMember_ok_src h3
  cases hE : strTruthy fns.embed <;> cases hS : strTruthy fns.splash
  · rw [if_neg (by simp [hE])] at h1
    rw [if_neg (by simp [hS])] at h2
    obtain rfl := Except.ok.inj h1
    obtain rfl := Except.ok.inj h2
    subst hm2
    refine ⟨ms2, rfl, ?_⟩
    obtain ⟨fs3, hfs3, hr⟩ := setMember_ok_src h4
    rw [hm3] at hfs3
    obtain rfl := Json.obj.inj hfs3
    rw [hr]
    simp [patchMiniappList, hE, hS]
  · rw [if_neg (by simp [hE])] at h1
    rw [if_pos hS] at h2
    obtain rfl := Except.ok.inj h1
    obtain ⟨msA, hA, hB⟩ := setMember_ok_src h2
    subst hA
    rw [hB] at hm2
    obtain rfl := Json.obj.inj hm2
    refine ⟨msA, rfl, ?_⟩
    obtain ⟨fs3, hfs3, hr⟩ := setMember_ok_src h4
    rw [hm3] at hfs3
    obtain rfl := Json.obj.inj hfs3
    rw [hr]
    simp [patchMiniappList, hE, hS]
  · rw [if_pos hE] at h1
    rw [if_neg (by simp [hS])] at h2
    obtain rfl := Except.ok.inj h2
    obtain ⟨msA, hA, hB⟩ := setMember_ok_src h1
    subst hA
    rw [hB] at hm2
    obtain rfl := Json.obj.inj hm2
    refine ⟨msA, rfl, ?_⟩
    obtain ⟨fs3, hfs3, hr⟩ := setMember_ok_src h4
    rw [hm3] at hfs3
    obtain rfl := Json.obj.inj hfs3
    rw [hr]
    simp [patchMiniappList, hE, hS]
  · rw [if_pos hE] at h1
    rw [if_pos hS] at h2
    obtain ⟨msA, hA, hB⟩ := setMember_ok_src h1
    subst hA
    obtain ⟨msB, hBeq, hC⟩ := setMember_ok_src h2
    rw [hB] at hBeq
    obtain rfl := Json.obj.inj hBeq
    rw [hC] at hm2
    obtain rfl := Json.obj.inj hm2
    refine ⟨msA, rfl, ?_⟩
    obtain ⟨fs3, hfs3, hr⟩ := setMember_ok_src h4
    rw [hm3] at hfs3
    obtain rfl := Json.obj.inj hfs3
    rw [hr]
    simp [patchMiniappList, hE, hS]

theorem patchMiniappList_lookup_other (baseUrl : String)
    (fns : ScreenshotFilenames) (ms : List (String × Json)) (k : String)
    (h1 : k ≠ "imageUrl") (h2 : k ≠ "splashImageUrl") (h3 : k ≠ "homeUrl")
    (h4 : k ≠ "webhookUrl") :
    lookupAssoc (patchMiniappList baseUrl fns ms) k = lookupAssoc ms k := by
  unfold patchMiniappList
  cases strTruthy fns.embed <;> cases strTruthy fns.splash <;>
    simp [lookupAssoc_setAssoc, Ne.symm h1, Ne.symm h2, Ne.symm h3, Ne.symm h4]

theorem patchMiniappList_lookup_set (baseUrl : String)
    (fns : ScreenshotFilenames) (ms : List (String × Json)) :
    lookupAssoc (patchMiniappList baseUrl fns ms) "homeUrl" =
      some (.str baseUrl) ∧
    lookupAssoc (patchMiniappList baseUrl fns ms) "webhookUrl" =
      some (.str (baseUrl ++ "/api/webhook")) ∧
    (strTruthy fns.embed = true →
      lookupAssoc (patchMiniappList baseUrl fns ms) "imageUrl" =
        some (.str (baseUrl ++ "/images/" ++ jsStr fns.embed))) ∧
    (strTruthy fns.splash = true →
      lookupAssoc (patchMiniappList baseUrl fns ms) "splashImageUrl" =
        some (.str (baseUrl ++ "/images/" ++ jsStr fns.splash))) := by
  unfold patchMiniappList
  cases hE : strTruthy fns.embed <;> cases hS : strTruthy fns.splash <;>
    simp [lookupAssoc_setAssoc]

theorem lookup_of_getMember_obj {cs : List (String × Json)} {k : String}
    {ms : List (String × Json)}
    (hm : (Json.obj cs).getMember k = .ok (.obj ms)) :
    lookupAssoc cs k = some (.obj ms) := by
  simp only [Json.getMember, Except.ok.injEq] at hm
  cases hlu : lookupAssoc cs k with
  | none => rw [hlu] at hm; simp [Option.getD] at hm
  | some x => rw [hlu] at hm; simp only [Option.getD] at hm; rw [hm]

/-- Claim C1: both manifest patchers leave every top-level field other than
`miniapp` unchanged, and inside `miniapp` touch only the fields
`imageUrl`, `splashImageUrl`, `iconUrl`, `homeUrl`, `webhookUrl`; every
other field is written back verbatim. -/
theorem manifest_patchers_touch_only_known_fields (d : String)
    (fns : ScreenshotFilenames) (origin : Json → Except Unit String)
    (env icf : Option String) (cfg cfg2 : Json) :
    (updateFarcasterConfigPure d fns cfg = .ok cfg2 →
      (∀ k, k ≠ "miniapp" → cfg2.getField k = cfg.getField k) ∧
      (∀ k, k ∉ (["imageUrl", "splashImageUrl", "iconUrl", "homeUrl",
          "webhookUrl"] : List String) →
        miniappField cfg2 k = miniappField cfg k)) ∧
    (updateFarcasterConfigWithIconPure origin env icf cfg = .ok cfg2 →
      (∀ k, k ≠ "miniapp" → cfg2.getField k = cfg.getField k) ∧
      (∀ k, k ∉ (["imageUrl", "splashImageUrl", "iconUrl", "homeUrl",
          "webhookUrl"] : List String) →
        miniappField cfg2 k = miniappField cfg k)) := by
  constructor
  · intro h
    unfold updateFarcasterConfigPure at h
    obtain ⟨m, hm, h⟩ := except_bind_ok h
    cases htr : m.truthy
    · rw [if_neg (by simp [htr])] at h
      obtain rfl := Except.ok.inj h
      exact ⟨fun k _ => rfl, fun k _ => rfl⟩
    · rw [if_pos htr] at h
      obtain ⟨m4, hp, hset⟩ := except_bind_ok h
      obtain ⟨ms, rfl, rfl⟩ := patchMiniapp_ok_shape hp
      obtain ⟨cs, rfl, rfl⟩ := setMember_ok_src hset
      have hlu : lookupAssoc cs "miniapp" = some (.obj ms) :=
        lookup_of_getMember_obj hm
      constructor
      · intro k hk
        simp [Json.getField, lookupAssoc_setAssoc, Ne.symm hk]
      · intro k hk
        simp only [List.mem_cons, List.not_mem_nil, or_false] at hk
        push_neg at hk
        obtain ⟨h1, h2, h3, h4, h5⟩ := hk
        simp [miniappField, Json.getField, lookupAssoc_setAssoc, hlu,
          patchMiniappList_lookup_other _ _ _ _ h1 h2 h4 h5]
  · intro h
    unfold updateFarcasterConfigWithIconPure at h
    obtain ⟨m, hm, h⟩ := except_bind_ok h
    obtain ⟨dom, hdom, h⟩ := except_bind_ok h
    cases htr : (m.truthy && strTruthy icf)
    · rw [if_neg (by simp [htr])] at h
      obtain rfl := Except.ok.inj h
      exact ⟨fun k _ => rfl, fun k _ => rfl⟩
    · rw [if_pos htr] at h
      obtain ⟨m1, hset1, hset2⟩ := except_bind_ok h
      obtain ⟨ms, rfl, rfl⟩ := setMember_ok_src hset1
      obtain ⟨cs, rfl, rfl⟩ := setMember_ok_src hset2
      have hlu : lookupAssoc cs "miniapp" = some (.obj ms) :=
        lookup_of_getMember_obj hm
      constructor
      · intro k hk
        simp [Json.getField, lookupAssoc_setAssoc, Ne.symm hk]
      · intro k hk
        simp only [List.mem_cons, List.not_mem_nil, or_false] at hk
        push_neg at hk
        obtain ⟨h1, h2, h3, h4, h5⟩ := hk
        simp [miniappField, Json.getField, lookupAssoc_setAssoc, hlu,
          Ne.symm h3]

/-- Witness for C1: patching a manifest with an extra top-level field and an
extra `miniapp` field preserves both. -/
theorem manifest_patchers_touch_only_known_fields_witness :
    (Json.obj (setAssoc [("keep", Json.num 7), ("miniapp", Json.obj [("name", Json.str "n")])]
        "miniapp" (Json.obj (patchMiniappList "https://d" ⟨some "e.png", some "s.png"⟩
          [("name", Json.str "n")])))).getField "keep" =
      (Json.obj [("keep", Json.num 7), ("miniapp", Json.obj [("name", Json.str "n")])]).getField "keep" := by
  have h := (manifest_patchers_touch_only_known_fields "d"
    ⟨some "e.png", some "s.png"⟩ (fun _ => .error ()) none none
    (Json.obj [("keep", Json.num 7), ("miniapp", Json.obj [("name", Json.str "n")])])
    (Json.obj (setAssoc [("keep", Json.num 7), ("miniapp", Json.obj [("name", Json.str "n")])]
      "miniapp" (Json.obj (patchMiniappList "https://d" ⟨some "e.png", some "s.png"⟩
        [("name", Json.str "n")]))))).1
  exact (h rfl).1 "keep" (by decide)

/-- Claim C5: with an object-valued `miniapp`, `updateFarcasterConfig` sets
`miniapp.imageUrl` and `miniapp.splashImageUrl` to
`https://<domain>/images/<filename>` for each generated asset, and
unconditionally overwrites `miniapp.homeUrl` to `https://<domain>` and
`miniapp.webhookUrl` to `https://<domain>/api/webhook` — also when no
filename was generated at all. -/
theorem updateFarcasterConfig_sets_urls (d e s : String)
    (cs ms : List (String × Json))
    (hm : lookupAssoc cs "miniapp" = some (.obj ms)) :
    (e ≠ "" → s ≠ "" →
      ∃ cfg2, updateFarcasterConfigPure d ⟨some e, some s⟩ (.obj cs) = .ok cfg2 ∧
        miniappField cfg2 "imageUrl" =
          some (.str ("https://" ++ d ++ "/images/" ++ e)) ∧
        miniappField cfg2 "splashImageUrl" =
          some (.str ("https://" ++ d ++ "/images/" ++ s)) ∧
        miniappField cfg2 "homeUrl" = some (.str ("https://" ++ d)) ∧
        miniappField cfg2 "webhookUrl" =
          some (.str ("https://" ++ d ++ "/api/webhook"))) ∧
    (∃ cfg2, updateFarcasterConfigPure d ⟨none, none⟩ (.obj cs) = .ok cfg2 ∧
      miniappField cfg2 "homeUrl" = some (.str ("https://" ++ d)) ∧
      miniappField cfg2 "webhookUrl" =
        some (.str ("https://" ++ d ++ "/api/webhook"))) := by
  have hrun : ∀ fns : ScreenshotFilenames,
      updateFarcasterConfigPure d fns (.obj cs) =
        .ok (.obj (setAssoc cs "miniapp"
          (.obj (patchMiniappList ("https://" ++ d) fns ms)))) := by
    intro fns
    unfold updateFarcasterConfigPure
    rw [show (Json.obj cs).getMember "miniapp" = .ok (.obj ms) by
      simp [Json.getMember, hm]]
    rw [show ∀ x f, Except.bind (Except.ok x : Except Unit Json) f = f x by
      intro x f; rfl]
    rw [if_pos (show (Json.obj ms).truthy = true from rfl)]
    rw [patchMiniapp_obj]
    rfl
  have hmini : ∀ fns (k : String),
      miniappField (Json.obj (setAssoc cs "miniapp"
        (.obj (patchMiniappList ("https://" ++ d) fns ms)))) k =
      lookupAssoc (patchMiniappList ("https://" ++ d) fns ms) k := by
    intro fns k
    simp [miniappField, Json.getField, lookupAssoc_setAssoc]
  constructor
  · intro he hs
    have hE : strTruthy (some e) = true := by simp [strTruthy, he]
    have hS : strTruthy (some s) = true := by simp [strTruthy, hs]
    have hset := patchMiniappList_lookup_set ("https://" ++ d) ⟨some e, some s⟩ ms
    refine ⟨_, hrun ⟨some e, some s⟩, ?_, ?_, ?_, ?_⟩
    · rw [hmini, hset.2.2.1 hE]; rfl
    · rw [hmini, hset.2.2.2 hS]; rfl
    · rw [hmini, hset.1]
    · rw [hmini, hset.2.1]
  · have hset := patchMiniappList_lookup_set ("https://" ++ d) ⟨none, none⟩ ms
    refine ⟨_, hrun ⟨none, none⟩, ?_, ?_⟩
    · rw [hmini, hset.1]
    · rw [hmini, hset.2.1]

/-- Witness for C5 at a concrete manifest, domain and filenames. -/
theorem updateFarcasterConfig_sets_urls_witness :
    ∃ cfg2, updateFarcasterConfigPure "host.app" ⟨some "e.png", some "s.png"⟩
        (.obj [("miniapp", Json.obj [])]) = .ok cfg2 ∧
      miniappField cfg2 "imageUrl" =
        some (.str ("https://" ++ "host.app" ++ "/images/" ++ "e.png")) ∧
      miniappField cfg2 "splashImageUrl" =
        some (.str ("https://" ++ "host.app" ++ "/images/" ++ "s.png")) ∧
      miniappField cfg2 "homeUrl" = some (.str ("https://" ++ "host.app")) ∧
      miniappField cfg2 "webhookUrl" =
        some (.str ("https://" ++ "host.app" ++ "/api/webhook")) :=
  (updateFarcasterConfig_sets_urls "host.app" "e.png" "s.png"
    [("miniapp", Json.obj [])] [] (by simp [lookupAssoc])).1
    (by decide) (by decide)

/-- Claim C6: `updateFarcasterConfigWithIcon` resolves the domain from the
origin of the manifest's existing `miniapp.homeUrl` when that field is
present (and truthy), otherwise from `https://<NEXT_PUBLIC_APP_DOMAIN>`,
and sets `miniapp.iconUrl` to `<domain>/images/<icon filename>`. -/
theorem updateFarcasterConfigWithIcon_domain_resolution
    (origin : Json → Except Unit String) (env : Option String) (f : String)
    (cs ms : List (String × Json))
    (hm : lookupAssoc cs "miniapp" = some (.obj ms)) (hf : f ≠ "") :
    (∀ hu o, lookupAssoc ms "homeUrl" = some hu → hu.truthy = true →
      origin hu = .ok o →
      ∃ cfg2, updateFarcasterConfigWithIconPure origin env (some f) (.obj cs) =
          .ok cfg2 ∧
        miniappField cfg2 "iconUrl" = some (.str (o ++ "/images/" ++ f))) ∧
    (lookupAssoc ms "homeUrl" = none →
      ∃ cfg2, updateFarcasterConfigWithIconPure origin env (some f) (.obj cs) =
          .ok cfg2 ∧
        miniappField cfg2 "iconUrl" =
          some (.str ("https://" ++ jsStr env ++ "/images/" ++ f))) := by
  have hbind : ∀ x (g : Json → Except Unit Json),
      Except.bind (Except.ok x : Except Unit Json) g = g x := fun _ _ => rfl
  have hgm : (Json.obj cs).getMember "miniapp" = .ok (.obj ms) := by
    simp [Json.getMember, hm]
  have hF : strTruthy (some f) = true := by simp [strTruthy, hf]
  have hmini : ∀ (dom : String) (k : String),
      miniappField (Json.obj (setAssoc cs "miniapp"
        (.obj (setAssoc ms "iconUrl" (.str (dom ++ "/images/" ++ f)))))) k =
      lookupAssoc (setAssoc ms "iconUrl" (.str (dom ++ "/images/" ++ f))) k := by
    intro dom k
    simp [miniappField, Json.getField, lookupAssoc_setAssoc]
  constructor
  · intro hu o hhu htr ho
    refine ⟨.obj (setAssoc cs "miniapp"
        (.obj (setAssoc ms "iconUrl" (.str (o ++ "/images/" ++ f))))), ?_, ?_⟩
    · unfold updateFarcasterConfigWithIconPure
      rw [hgm, hbind]
      rw [show (Json.obj ms).optMember "homeUrl" = hu by
        simp [Json.optMember, hhu]]
      rw [if_pos htr, ho]
      rw [show ∀ (g : String → Except Unit Json),
          Except.bind (Except.ok o : Except Unit String) g = g o from fun _ => rfl]
      rw [if_pos (by simp [Json.truthy, hF])]
      rw [show (Json.obj ms).setMember "iconUrl"
          (.str (o ++ "/images/" ++ jsStr (some f))) =
          .ok (.obj (setAssoc ms "iconUrl" (.str (o ++ "/images/" ++ f)))) from rfl]
      rw [hbind]
      rfl
    · rw [hmini, lookupAssoc_setAssoc]
      simp
  · intro hnone
    refine ⟨.obj (setAssoc cs "miniapp"
        (.obj (setAssoc ms "iconUrl"
          (.str ("https://" ++ jsStr env ++ "/images/" ++ f))))), ?_, ?_⟩
    · unfold updateFarcasterConfigWithIconPure
      rw [hgm, hbind]
      rw [show (Json.obj ms).optMember "homeUrl" = .undefined by
        simp [Json.optMember, hnone]]
      rw [if_neg (by simp [Json.truthy])]
      rw [show ∀ (g : String → Except Unit Json),
          Except.bind (Except.ok ("https://" ++ jsStr env) : Except Unit String) g =
            g ("https://" ++ jsStr env) from fun _ => rfl]
      rw [if_pos (by simp [Json.truthy, hF])]
      rw [show (Json.obj ms).setMember "iconUrl"
          (.str ("https://" ++ jsStr env ++ "/images/" ++ jsStr (some f))) =
          .ok (.obj (setAssoc ms "iconUrl"
            (.str ("https://" ++ jsStr env ++ "/images/" ++ f)))) from rfl]
      rw [hbind]
      rfl
    · rw [hmini, lookupAssoc_setAssoc]
      simp

/-- Witness for C6: a manifest whose `miniapp.homeUrl` is
`https://old.app/x` resolves the icon URL against the origin reported for
it, and a manifest without `homeUrl` falls back to the env domain. -/
theorem updateFarcasterConfigWithIcon_domain_resolution_witness :
    (∃ cfg2, updateFarcasterConfigWithIconPure
        (fun _ => .ok "https://old.app") (some "env.app") (some "i.png")
        (.obj [("miniapp", Json.obj [("homeUrl", Json.str "https://old.app/x")])]) =
          .ok cfg2 ∧
      miniappField cfg2 "iconUrl" =
        some (.str ("https://old.app" ++ "/images/" ++ "i.png"))) ∧
    (∃ cfg2, updateFarcasterConfigWithIconPure
        (fun _ => .ok "https://old.app") (some "env.app") (some "i.png")
        (.obj [("miniapp", Json.obj [])]) = .ok cfg2 ∧
      miniappField cfg2 "iconUrl" =
        some (.str ("https://" ++ jsStr (some "env.app") ++ "/images/" ++ "i.png"))) :=
  ⟨(updateFarcasterConfigWithIcon_domain_resolution
      (fun _ => .ok "https://old.app") (some "env.app") "i.png"
      [("miniapp", Json.obj [("homeUrl", Json.str "https://old.app/x")])]
      [("homeUrl", Json.str "https://old.app/x")]
      (by simp [lookupAssoc]) (by decide)).1
    (Json.str "https://old.app/x") "https://old.app"
    (by simp [lookupAssoc]) (by decide) rfl,
   (updateFarcasterConfigWithIcon_domain_resolution
      (fun _ => .ok "https://old.app") (some "env.app") "i.png"
      [("miniapp", Json.obj [])] []
      (by simp [lookupAssoc]) (by decide)).2 rfl⟩

/-- Witness for C9 at a concrete ISO timestamp: a surviving character of the
sanitized timestamp is neither a colon nor a dot. -/
theorem generateFilename_shape_witness : '2' ≠ ':' ∧ '2' ≠ '.' :=
  (generateFilename_shape "embed" "screenshot" "2026-01-02T03:04:05.678Z").2.1
    '2' (by decide)

/-- Witness for C10: an already-protocolled URL is unchanged, a bare host is
prefixed with `https://`. -/
theorem ensureProtocol_cases_and_idempotent_witness :
    ensureProtocol "https://x.app" = "https://x.app" ∧
    ensureProtocol "example.com" = "https://" ++ "example.com" :=
  ⟨(ensureProtocol_cases_and_idempotent "https://x.app").1 (by decide),
   (ensureProtocol_cases_and_idempotent "example.com").2.1 (by decide)⟩

/-- Witness for C2: in the spec's example directory, `unrelated.png`
survives the sweep because it does not match the stale pattern. -/
theorem stale_asset_cleaner_exact_witness :
    ("unrelated.png" ∈
        (["screenshot-embed-A.png", "unrelated.png"] : List String).filter
          fun g => !(isStaleScreenshot g)) ↔
      isStaleScreenshot "unrelated.png" = false :=
  (stale_asset_cleaner_exact ["screenshot-embed-A.png", "unrelated.png"]
    "unrelated.png").2.2.1 (by decide)

end ResumeJobFinder
